import Mathlib

/-!
Shallow embedding of the Kruboo ai-gateway core
(`services/ai-gateway/core/{intent_analyzer,command_processor,workflow_engine}.py`)
and proofs about the claims of its specification.

Conventions:
* Python `str` is modelled as `List Char` (`PyStr`); `lower`, `strip`,
  `startswith`, `endswith`, slicing and `replace` are modelled directly on
  character lists.
* Python `dict` is modelled as an association list with insert-or-update
  semantics (`dictSet`) preserving insertion order, as CPython dicts do.
* Python `float` literals used by the code (0.1, 0.3, 0.9, ...) are modelled
  as exact rationals (`ℚ`); every claim compares against the same decimal
  literals, so no binary-rounding artifact is relevant at the compared points.
* `datetime.utcnow()` timestamps and wall-clock durations are opaque to the
  logic; the timestamp stored in the execution context is the distinguished
  constructor `Value.timeStamp` and durations are fixed to 0.
* Exceptions are modelled with `Except`; external effects (the shell spawned
  by the generic command handler, the wall clock read by the system-info
  handler) are explicit oracle arguments.
-/

set_option linter.unusedVariables false

/-- Python `str` modelled as a list of characters. -/
abbrev PyStr := List Char

/-- Python `s.startswith(p)`. -/
def pyStartswith : PyStr → PyStr → Bool
  | _, [] => true
  | [], _ :: _ => false
  | c :: s, p :: ps => c == p && pyStartswith s ps

/-- Python `s.endswith(p)`. -/
def pyEndswith (s suf : PyStr) : Bool :=
  pyStartswith s.reverse suf.reverse

/-- The characters Python's default `str.strip()` removes. -/
def pyIsSpace (c : Char) : Bool :=
  c == ' ' || c == '\t' || c == '\n' || c == '\r' || c == '\x0b' || c == '\x0c'

/-- Python `s.lstrip()`. -/
def pyLstrip (s : PyStr) : PyStr := s.dropWhile pyIsSpace

/-- Python `s.rstrip()`. -/
def pyRstripWS (s : PyStr) : PyStr := (s.reverse.dropWhile pyIsSpace).reverse

/-- Python `s.strip()` (no argument: whitespace on both ends). -/
def pyStrip (s : PyStr) : PyStr := pyRstripWS (pyLstrip s)

/-- Python `s.rstrip(chars)`. -/
def pyRstripChars (s : PyStr) (cs : List Char) : PyStr :=
  (s.reverse.dropWhile (fun c => cs.contains c)).reverse

/-- Python `s.lower()` (the code only feeds ASCII command text through it). -/
def pyLower (s : PyStr) : PyStr := s.map Char.toLower

/-- Python `sub in s` for strings: substring containment. -/
def pyContainsSub : PyStr → PyStr → Bool
  | [], sub => pyStartswith [] sub
  | s@(_ :: rest), sub => pyStartswith s sub || pyContainsSub rest sub

/-- Worker for `pyReplace`; the fuel (initially `s.length`) only guarantees
termination in Lean, it is never exhausted on the code's non-empty patterns. -/
def pyReplaceGo : Nat → PyStr → PyStr → PyStr → PyStr
  | 0, s, _, _ => s
  | _ + 1, [], _, _ => []
  | fuel + 1, c :: rest, pat, rep =>
    if !pat.isEmpty && pyStartswith (c :: rest) pat then
      rep ++ pyReplaceGo fuel (List.drop pat.length (c :: rest)) pat rep
    else
      c :: pyReplaceGo fuel rest pat rep

/-- Python `s.replace(pat, rep)`: replace every non-overlapping occurrence,
left to right. -/
def pyReplace (s pat rep : PyStr) : PyStr := pyReplaceGo s.length s pat rep

/-- Python values as they flow through the gateway core: strings, numbers,
booleans, the opaque `datetime` stored as `workflow_start_time`, lists and
dicts. -/
inductive Value where
  | str : PyStr → Value
  | num : ℚ → Value
  | bool : Bool → Value
  | timeStamp : Value
  | vlist : List Value → Value
  | vdict : List (PyStr × Value) → Value

/-- A Python dict with `Value` values: association list in insertion order. -/
abbrev Dict := List (PyStr × Value)

/-- Python `d.get(key)` / `d[key]` lookup (first — and only — binding wins;
the embedding never constructs duplicate keys). -/
def dictGet : Dict → PyStr → Option Value
  | [], _ => none
  | (k, v) :: rest, key => if k == key then some v else dictGet rest key

/-- Python `d.get(key, default)`. -/
def dictGetD (d : Dict) (key : PyStr) (default : Value) : Value :=
  (dictGet d key).getD default

/-- Python `d[key] = v`: update in place if the key exists (keeping its
position), else append at the end. -/
def dictSet : Dict → PyStr → Value → Dict
  | [], key, v => [(key, v)]
  | (k, w) :: rest, key, v =>
    if k == key then (k, v) :: rest else (k, w) :: dictSet rest key v


/-! ## Intent analyzer (`core/intent_analyzer.py`)

The regexes registered by `IntentAnalyzer` come in exactly two shapes:
a plain literal (e.g. `r"system info"`) and a literal followed by a greedy
capture group (e.g. `r"open (.+)"`).  `re.search` semantics for those shapes:
a literal matches iff it occurs as a substring; `lit(.+)` matches at the
leftmost occurrence of `lit` that is followed by at least one character other
than a newline, and group 1 greedily takes everything from there up to the
next newline or end of string. -/

/-- The two regex shapes used by `_initialize_patterns`. -/
inductive Pattern where
  | lit : PyStr → Pattern
  | litCapture : PyStr → Pattern

/-- Greedy `(.+)` at the current position: the run of non-newline characters,
which must be non-empty for the pattern to match. -/
def dotPlus (s : PyStr) : Option PyStr :=
  match s.takeWhile (fun c => c != '\n') with
  | [] => none
  | run => some run

/-- `re.search(lit + "(.+)", s)`: leftmost occurrence of `lit` followed by a
non-empty `(.+)` run; returns group 1. -/
def findCap (litStr : PyStr) (s : PyStr) : Option PyStr :=
  match s with
  | [] => none
  | _ :: tail =>
    if pyStartswith s litStr then
      match dotPlus (List.drop litStr.length s) with
      | some g => some g
      | none => findCap litStr tail
    else findCap litStr tail

/-- `re.search(pattern, s)` for the two shapes: `none` = no match, `some g` =
match with optional capture group 1. -/
def patSearch : Pattern → PyStr → Option (Option PyStr)
  | .lit l, s => if pyContainsSub s l then some none else none
  | .litCapture l, s => (findCap l s).map some

/-- `re.search(pattern, s)` succeeds. -/
def patMatches (p : Pattern) (s : PyStr) : Bool := (patSearch p s).isSome

/-- The entity / parameter extractors used by the rule table (`match.group(1)`
is passed through, as the lambdas only use the match's first group). -/
inductive Extractor where
  | appName        -- `_extract_app_name`: {'app_name': match.group(1).strip()}
  | searchQuery    -- `_extract_search_query`: {'query': match.group(1).strip()}
  | emptyEntities  -- `lambda m, t: {}`

/-- Apply an extractor to the (optional) capture group. -/
def applyExtractor : Extractor → Option PyStr → Dict
  | .appName, g => [("app_name".toList, .str (pyStrip (g.getD [])))]
  | .searchQuery, g => [("query".toList, .str (pyStrip (g.getD [])))]
  | .emptyEntities, _ => []

/-- One entry of the rule table returned by `_initialize_patterns`. -/
structure IntentRule where
  intent : PyStr
  action : PyStr
  patterns : List Pattern
  entityExtractor : Extractor
  paramExtractor : Option Extractor  -- `.get('parameter_extractor', λ m t: {})`

/-- The rule table of `_initialize_patterns`, in registration order. -/
def analyzerRules : List IntentRule :=
  [ { intent := "open_application".toList, action := "open_app".toList,
      patterns := [.litCapture "open ".toList, .litCapture "launch ".toList,
                   .litCapture "start ".toList, .litCapture "run ".toList],
      entityExtractor := .appName, paramExtractor := some .appName },
    { intent := "search_web".toList, action := "web_search".toList,
      patterns := [.litCapture "search for ".toList, .litCapture "find ".toList,
                   .litCapture "look up ".toList, .litCapture "google ".toList],
      entityExtractor := .searchQuery, paramExtractor := none },
    { intent := "system_info".toList, action := "get_system_info".toList,
      patterns := [.lit "system info".toList, .lit "what's running".toList,
                   .lit "show processes".toList, .lit "computer info".toList],
      entityExtractor := .emptyEntities, paramExtractor := none } ]

/-- Result dataclass of the analyzer. -/
structure IntentResult where
  intent : PyStr
  confidence : ℚ
  entities : Dict
  action : PyStr
  parameters : Dict

/-- First pattern of the rule that `re.search`-matches `s`, in pattern order. -/
def firstPatMatch (ps : List Pattern) (s : PyStr) : Option (Option PyStr) :=
  match ps with
  | [] => none
  | p :: rest =>
    match patSearch p s with
    | some g => some g
    | none => firstPatMatch rest s

/-- First rule (in registration order) with a matching pattern, with the
match's capture group. -/
def firstRuleMatch (rules : List IntentRule) (s : PyStr) :
    Option (IntentRule × Option PyStr) :=
  match rules with
  | [] => none
  | r :: rest =>
    match firstPatMatch r.patterns s with
    | some g => some (r, g)
    | none => firstRuleMatch rest s

/-- `IntentAnalyzer._fallback_analysis`. -/
def fallbackAnalysis (text : PyStr) : IntentResult :=
  { intent := "general_query".toList,
    confidence := 0.3,
    entities := [("text".toList, .str text)],
    action := "ai_process".toList,
    parameters := [("prompt".toList, .str text)] }

/-- `IntentAnalyzer.analyze`: try the rules' patterns against the lower-cased,
stripped text in order; first match wins with confidence 0.9, otherwise fall
back to `general_query` with confidence 0.3. -/
def analyze (text : PyStr) : IntentResult :=
  let textLower := pyStrip (pyLower text)
  match firstRuleMatch analyzerRules textLower with
  | some (rule, g) =>
    { intent := rule.intent,
      confidence := 0.9,
      entities := applyExtractor rule.entityExtractor g,
      action := rule.action,
      parameters :=
        match rule.paramExtractor with
        | some pe => applyExtractor pe g
        | none => [] }
  | none => fallbackAnalysis text


/-! ## Command dispatcher (`core/command_processor.py`)

External effects are an explicit environment: the shell spawned by the
generic handler and the wall-clock strings used by the system-info handler.
The `parameters` mapping is accepted and threaded but never read by any
handler, exactly as in the source. -/

/-- Outcome of `asyncio.create_subprocess_shell` + `communicate`. -/
structure ShellResult where
  returncode : Int
  stdout : PyStr
  stderr : PyStr

/-- A shell invocation either yields a process result or raises. -/
inductive ShellOutcome where
  | ran : ShellResult → ShellOutcome
  | raised : PyStr → ShellOutcome  -- `str(e)` of the raised exception

/-- The dispatcher's external collaborators. -/
structure Env where
  shell : PyStr → ShellOutcome
  timeStr : PyStr  -- `datetime.now().strftime("%I:%M %p")`
  dateStr : PyStr  -- `datetime.now().strftime("%A, %B %d, %Y")`

/-- The prefix table of `_extract_app_name`. -/
def appNamePrefixes : List PyStr :=
  ["open ", "launch ", "start ", "close ", "quit ", "exit "].map String.toList

/-- Loop body of `_extract_app_name`: first matching prefix wins. -/
def extractAppNameGo (command : PyStr) : List PyStr → Option PyStr
  | [] => none
  | p :: rest =>
    if pyStartswith command p then
      let appName := pyStrip (List.drop p.length command)
      let appName := pyRstripChars appName ['.', ',', '!', '?']
      let appName :=
        pyStrip (pyReplace (pyReplace appName " the ".toList " ".toList)
          " my ".toList " ".toList)
      if appName.isEmpty then none else some appName
    else extractAppNameGo command rest

/-- `CommandProcessor._extract_app_name`. -/
def extractAppName (command : PyStr) : Option PyStr :=
  extractAppNameGo command appNamePrefixes

/-- `str.split()` with no argument (split on whitespace runs); the fuel,
initially the string length, is never exhausted. -/
def pySplitGo : Nat → PyStr → List PyStr
  | 0, _ => []
  | _ + 1, [] => []
  | fuel + 1, c :: rest =>
    if pyIsSpace c then pySplitGo fuel rest
    else ((c :: rest).takeWhile (fun d => !pyIsSpace d)) ::
      pySplitGo fuel ((c :: rest).dropWhile (fun d => !pyIsSpace d))

/-- Python `s.split()`. -/
def pySplit (s : PyStr) : List PyStr := pySplitGo s.length s

/-- Python `list.index` as an option (a miss raises `ValueError`, which the
source catches with a bare `except`). -/
def listIndexOf : List PyStr → PyStr → Option Nat
  | [], _ => none
  | w :: rest, t => if w == t then some 0 else (listIndexOf rest t).map (· + 1)

/-- Fallback branch of `_extract_search_query`: words after the exact token
`search` (or else `find`), skipping `for`/`my`/`the`; the `search_index != -1`
test of the source is always true inside this branch (a substring hit
guarantees `str.find ≥ 0`), and a `ValueError` from `list.index` is swallowed
by the bare `except`, yielding `None`. -/
def extractSearchQueryFallback (command : PyStr) : Option PyStr :=
  if pyContainsSub command "search".toList || pyContainsSub command "find".toList then
    let words := pySplit command
    let target :=
      if words.contains "search".toList then "search".toList else "find".toList
    match listIndexOf words target with
    | none => none
    | some i =>
      let queryWords := (words.drop (i + 1)).filter
        (fun w => !(w == "for".toList || w == "my".toList || w == "the".toList))
      if queryWords.isEmpty then none
      else some (List.intercalate [' '] queryWords)
  else none

/-- The prefix table of `_extract_search_query`. -/
def searchQueryPrefixes : List PyStr :=
  ["search for ", "find ", "locate ", "look for "].map String.toList

/-- Loop body of `_extract_search_query`. -/
def extractSearchQueryGo (command : PyStr) : List PyStr → Option PyStr
  | [] => extractSearchQueryFallback command
  | p :: rest =>
    if pyStartswith command p then
      let query := pyStrip (List.drop p.length command)
      let query :=
        pyStrip (pyReplace (pyReplace query " files".toList [])
          " documents".toList [])
      if query.isEmpty then none else some query
    else extractSearchQueryGo command rest

/-- `CommandProcessor._extract_search_query`. -/
def extractSearchQuery (command : PyStr) : Option PyStr :=
  extractSearchQueryGo command searchQueryPrefixes

/-- The keyword table of `_extract_file_operation`, in insertion order. -/
def fileOperationKeywords : List (PyStr × List PyStr) :=
  [ ("copy".toList, ["copy", "duplicate"].map String.toList),
    ("move".toList, ["move", "transfer"].map String.toList),
    ("delete".toList, ["delete", "remove", "trash"].map String.toList),
    ("backup".toList, ["backup", "save copy"].map String.toList) ]

/-- Loop body of `_extract_file_operation`. -/
def extractFileOperationGo (command : PyStr) :
    List (PyStr × List PyStr) → Option PyStr
  | [] => none
  | (op, kws) :: rest =>
    if kws.any (fun k => pyContainsSub command k) then some op
    else extractFileOperationGo command rest

/-- `CommandProcessor._extract_file_operation`. -/
def extractFileOperation (command : PyStr) : Option PyStr :=
  extractFileOperationGo command fileOperationKeywords

/-- `CommandProcessor._handle_application_launch` (its `except` branch is
unreachable in the embedding: every operation below is pure and total). -/
def handleApplicationLaunch (command : PyStr) (parameters : Dict) : Dict :=
  match extractAppName command with
  | none =>
    [("success".toList, .bool false),
     ("response".toList, .str "Could not determine which application to launch".toList),
     ("confidence".toList, .num 0.3),
     ("execution_time".toList, .num 0)]
  | some appName =>
    [("success".toList, .bool true),
     ("response".toList, .str ("Launching ".toList ++ appName)),
     ("confidence".toList, .num 0.9),
     ("execution_time".toList, .num 0.1),
     ("application".toList, .str appName)]

/-- `CommandProcessor._handle_application_close`. -/
def handleApplicationClose (command : PyStr) (parameters : Dict) : Dict :=
  match extractAppName command with
  | none =>
    [("success".toList, .bool false),
     ("response".toList, .str "Could not determine which application to close".toList),
     ("confidence".toList, .num 0.3),
     ("execution_time".toList, .num 0)]
  | some appName =>
    [("success".toList, .bool true),
     ("response".toList, .str ("Closing ".toList ++ appName)),
     ("confidence".toList, .num 0.9),
     ("execution_time".toList, .num 0.1),
     ("application".toList, .str appName)]

/-- `CommandProcessor._handle_file_search`. -/
def handleFileSearch (command : PyStr) (parameters : Dict) : Dict :=
  match extractSearchQuery command with
  | none =>
    [("success".toList, .bool false),
     ("response".toList, .str "What would you like me to search for?".toList),
     ("confidence".toList, .num 0.5),
     ("execution_time".toList, .num 0)]
  | some query =>
    [("success".toList, .bool true),
     ("response".toList, .str ("Searching for files matching '".toList
        ++ query ++ "'".toList)),
     ("confidence".toList, .num 0.8),
     ("execution_time".toList, .num 0.2),
     ("search_query".toList, .str query)]

/-- `CommandProcessor._handle_file_operation`. -/
def handleFileOperation (command : PyStr) (parameters : Dict) : Dict :=
  match extractFileOperation command with
  | none =>
    [("success".toList, .bool false),
     ("response".toList, .str "What file operation would you like to perform?".toList),
     ("confidence".toList, .num 0.4),
     ("execution_time".toList, .num 0)]
  | some op =>
    [("success".toList, .bool true),
     ("response".toList, .str ("Performing file operation: ".toList ++ op)),
     ("confidence".toList, .num 0.8),
     ("execution_time".toList, .num 0.1),
     ("operation".toList, .str op)]

/-- `CommandProcessor._handle_system_info`. -/
def handleSystemInfo (env : Env) (command : PyStr) (parameters : Dict) : Dict :=
  if pyContainsSub command "time".toList then
    [("success".toList, .bool true),
     ("response".toList, .str ("The current time is ".toList ++ env.timeStr)),
     ("confidence".toList, .num 1.0),
     ("execution_time".toList, .num 0.1)]
  else if pyContainsSub command "date".toList then
    [("success".toList, .bool true),
     ("response".toList, .str ("Today is ".toList ++ env.dateStr)),
     ("confidence".toList, .num 1.0),
     ("execution_time".toList, .num 0.1)]
  else
    [("success".toList, .bool false),
     ("response".toList, .str "I can tell you the current time or date".toList),
     ("confidence".toList, .num 0.7),
     ("execution_time".toList, .num 0)]

/-- `CommandProcessor._handle_generic_command`: run the raw command through
the shell; empty stdout/stderr fall back to canned responses (`or`). -/
def handleGenericCommand (env : Env) (command : PyStr) (parameters : Dict) : Dict :=
  match env.shell command with
  | .ran res =>
    if res.returncode == 0 then
      let response :=
        if (pyStrip res.stdout).isEmpty then "Command executed successfully".toList
        else pyStrip res.stdout
      [("success".toList, .bool true),
       ("response".toList, .str response),
       ("confidence".toList, .num 0.8),
       ("execution_time".toList, .num 0.5)]
    else
      let errorMsg :=
        if (pyStrip res.stderr).isEmpty then "Command failed".toList
        else pyStrip res.stderr
      [("success".toList, .bool false),
       ("response".toList, .str errorMsg),
       ("confidence".toList, .num 0.6),
       ("execution_time".toList, .num 0.5)]
  | .raised msg =>
    [("success".toList, .bool false),
     ("response".toList, .str ("Command execution error: ".toList ++ msg)),
     ("confidence".toList, .num 0.0),
     ("execution_time".toList, .num 0)]

/-- Routing test (1): `command_lower.startswith(('open ', 'launch ', 'start '))`. -/
def isLaunchCommand (commandLower : PyStr) : Bool :=
  pyStartswith commandLower "open ".toList || pyStartswith commandLower "launch ".toList
    || pyStartswith commandLower "start ".toList

/-- Routing test (2): `command_lower.startswith(('close ', 'quit ', 'exit '))`. -/
def isCloseCommand (commandLower : PyStr) : Bool :=
  pyStartswith commandLower "close ".toList || pyStartswith commandLower "quit ".toList
    || pyStartswith commandLower "exit ".toList

/-- Routing test (3): any of `search`/`find`/`locate` occurs in the command. -/
def isSearchCommand (commandLower : PyStr) : Bool :=
  pyContainsSub commandLower "search".toList || pyContainsSub commandLower "find".toList
    || pyContainsSub commandLower "locate".toList

/-- Routing test (4): any of `copy`/`move`/`delete`/`backup` occurs. -/
def isFileOpCommand (commandLower : PyStr) : Bool :=
  pyContainsSub commandLower "copy".toList || pyContainsSub commandLower "move".toList
    || pyContainsSub commandLower "delete".toList
    || pyContainsSub commandLower "backup".toList

/-- Routing test (5): `what time` or `what date` occurs. -/
def isSystemInfoCommand (commandLower : PyStr) : Bool :=
  pyContainsSub commandLower "what time".toList
    || pyContainsSub commandLower "what date".toList

/-- `CommandProcessor.execute`: lower-case and strip the command, route it
through the fixed keyword tests in priority order, and dispatch.  The
top-level `except` branch converting an exception into a `confidence 0.0`
result is unreachable in the embedding because the only failure source (the
shell) is already caught inside the generic handler, as in the source. -/
def CommandProcessor.execute (env : Env) (command : PyStr)
    (parameters : Option Dict) : Dict :=
  let parameters := parameters.getD []  -- `parameters = parameters or {}`
  let commandLower := pyStrip (pyLower command)
  if isLaunchCommand commandLower then
    handleApplicationLaunch commandLower parameters
  else if isCloseCommand commandLower then
    handleApplicationClose commandLower parameters
  else if isSearchCommand commandLower then
    handleFileSearch commandLower parameters
  else if isFileOpCommand commandLower then
    handleFileOperation commandLower parameters
  else if isSystemInfoCommand commandLower then
    handleSystemInfo env commandLower parameters
  else
    handleGenericCommand env command parameters

/-! ## Workflow engine (`core/workflow_engine.py`)

Steps are Python dicts; the fields the engine reads are modelled as a
structure, with `Option` for the keys the source accesses through `.get`
(`type`, `nextStep`).  `created_at`/`updated_at` and the wall clock are not
modelled (no claim mentions them); the `workflow_start_time` value seeded
into the execution context is the opaque `Value.timeStamp`. -/

/-- One workflow step. -/
structure Step where
  id : PyStr
  type : Option PyStr  -- `.get('type')`; `_execute_step` defaults it to `'command'`
  action : PyStr
  parameters : Dict
  nextStep : Option PyStr

/-- The dict a step literally is, used when a merged step carries its two
original steps in its parameters (absent optional keys are omitted). -/
def stepToValue (s : Step) : Value :=
  .vdict ([("id".toList, .str s.id)]
    ++ (match s.type with | some t => [("type".toList, .str t)] | none => [])
    ++ [("action".toList, .str s.action),
        ("parameters".toList, .vdict s.parameters)]
    ++ (match s.nextStep with | some n => [("nextStep".toList, .str n)] | none => []))

/-- Python `round(q, 2)` on the exact value: round half to even at two
decimal places. -/
def pyRound2 (q : ℚ) : ℚ :=
  (if Int.fract (q * 100) = 1 / 2 then 2 * round (q * 100 / 2) else round (q * 100)) / 100

/-- `complexity_factors['step_count']`. -/
def stepCount (steps : List Step) : ℕ := steps.length

/-- `complexity_factors['conditionals']`. -/
def conditionalCount (steps : List Step) : ℕ :=
  (steps.filter (fun s => s.type == some "condition".toList)).length

/-- `complexity_factors['external_actions']`: steps whose type is
`app_operation` or `file_operation`. -/
def externalActionCount (steps : List Step) : ℕ :=
  (steps.filter (fun s => s.type == some "app_operation".toList
    || s.type == some "file_operation".toList)).length

/-- `WorkflowEngine._calculate_complexity`: the weighted, clamped score,
passed through `round(score, 2)`. -/
def calculateComplexity (steps : List Step) : ℚ :=
  pyRound2 (min 1.0 ((stepCount steps : ℚ) * 0.1
    + (conditionalCount steps : ℚ) * 0.4 + (externalActionCount steps : ℚ) * 0.5))

/-- `WorkflowEngine._merge_file_operations`. -/
def mergeFileOperations (step1 step2 : Step) : Step :=
  { id := step1.id ++ "_merged".toList,
    type := some "file_operation".toList,
    action := "batch_operation".toList,
    parameters :=
      [("operations".toList, .vlist [stepToValue step1, stepToValue step2]),
       ("description".toList, .str ("Merged ".toList ++ step1.action
          ++ " and ".toList ++ step2.action))],
    nextStep := none }

/-- `WorkflowEngine._optimize_steps`: one left-to-right pass; two adjacent
`file_operation` steps collapse into one merged step and the scan resumes
after the pair. -/
def optimizeSteps : List Step → List Step
  | [] => []
  | [s] => [s]
  | s1 :: s2 :: rest =>
    if s1.type == some "file_operation".toList
        && s2.type == some "file_operation".toList then
      mergeFileOperations s1 s2 :: optimizeSteps rest
    else
      s1 :: optimizeSteps (s2 :: rest)

/-- The template opener `$\x7b` as characters. -/
def templOpen : PyStr := ['$', '\x7b']

/-- `WorkflowEngine._resolve_parameters`, for one value: a string starting
with `$\x7b` and ending with `\x7d` is looked up in the context under the text
between the braces, defaulting to the literal string itself. -/
def resolveValue (value : Value) (context : Dict) : Value :=
  match value with
  | .str s =>
    if pyStartswith s templOpen && pyEndswith s ['\x7d'] then
      let contextKey := (List.drop 2 s).dropLast  -- `value[2:-1]`
      dictGetD context contextKey (.str s)        -- `context.get(context_key, value)`
    else .str s
  | v => v

/-- `WorkflowEngine._resolve_parameters`. -/
def resolveParameters (parameters : Dict) (context : Dict) : Dict :=
  parameters.map (fun kv => (kv.1, resolveValue kv.2 context))

/-- The exceptions `execute_workflow` can raise.  `typeError` is the
`TypeError` that `asyncio.sleep` raises when its delay is not a number
(its message text is not modelled). -/
inductive ExecError where
  | valueError : PyStr → ExecError
  | indexError : ExecError
  | typeError : ExecError
  deriving DecidableEq

/-- The values `asyncio.sleep` accepts as a delay: ints and floats (booleans
are an int subclass); any other value fails the `delay <= 0` comparison with
a `TypeError`. -/
def Value.isPyNumber : Value → Bool
  | .num _ => true
  | .bool _ => true
  | _ => false

/-- `WorkflowEngine._execute_step`: resolve the parameters against the
context, then dispatch on the step type (defaulted to `'command'`); an
unknown type raises `ValueError`.  The executors `_execute_system_command`,
`_execute_file_operation` and `_execute_app_operation` are the source's own
stubs returning status dicts.  A `delay` step awaits
`asyncio.sleep(resolved_params.get('duration', 1))`: on a numeric duration
this is pure time passage, but on any non-numeric resolved duration (for
example an unresolved template string left literal by `_resolve_parameters`)
`asyncio.sleep` raises `TypeError`, which propagates. -/
def executeStep (step : Step) (context : Dict) : Except ExecError Value :=
  let stepType := step.type.getD "command".toList
  let action := step.action
  let resolvedParams := resolveParameters step.parameters context
  if stepType == "command".toList then
    .ok (.vdict [("command".toList, .str action),
      ("parameters".toList, .vdict resolvedParams),
      ("status".toList, .str "executed".toList)])
  else if stepType == "file_operation".toList then
    .ok (.vdict [("operation".toList, .str action),
      ("parameters".toList, .vdict resolvedParams),
      ("status".toList, .str "executed".toList)])
  else if stepType == "app_operation".toList then
    .ok (.vdict [("operation".toList, .str action),
      ("parameters".toList, .vdict resolvedParams),
      ("status".toList, .str "executed".toList)])
  else if stepType == "delay".toList then
    if (dictGetD resolvedParams "duration".toList (.num 1)).isPyNumber then
      .ok (.vdict [("status".toList, .str "delayed".toList),
        ("duration".toList, dictGetD resolvedParams "duration".toList (.num 1))])
    else
      .error .typeError
  else
    .error (.valueError ("Unknown step type: ".toList ++ stepType))

/-- `WorkflowEngine._get_next_step`: `''` and `None` are both falsy, so an
empty `nextStep` id also ends the chain; otherwise the first step with the
referenced id, or `None` if the id resolves to no step. -/
def getNextStep (steps : List Step) (currentStep : Step) : Option Step :=
  match currentStep.nextStep with
  | none => none
  | some nextId =>
    if nextId.isEmpty then none
    else steps.find? (fun s => s.id == nextId)

/-- The `while current_step:` loop of `execute_workflow`.  The loop body runs
a step, records its result in `results` under the step id, advances along
`nextStep`, and breaks once the incremented `step_index` exceeds 100.  The
`fuel` argument makes the recursion structural; called with `fuel = 101` and
`step_index = 0` it keeps the invariant `fuel + step_index = 101`, so the
fuel-exhaustion branch is unreachable (the index test breaks first). -/
def runSteps (steps : List Step) (context : Dict) :
    Nat → Option Step → Nat → Dict → Except ExecError (Nat × Dict)
  | _, none, stepIndex, results => .ok (stepIndex, results)
  | 0, some _, stepIndex, results => .ok (stepIndex, results)
  | fuel + 1, some currentStep, stepIndex, results =>
    match executeStep currentStep context with
    | .error e => .error e
    | .ok stepResult =>
      let results' := dictSet results currentStep.id stepResult
      let nextStep := getNextStep steps currentStep
      if stepIndex + 1 > 100 then .ok (stepIndex + 1, results')
      else runSteps steps context fuel nextStep (stepIndex + 1) results'

/-- A stored workflow (the fields `execute_workflow` reads). -/
structure Workflow where
  id : PyStr
  name : PyStr
  steps : List Step
  triggerType : PyStr

/-- `self.workflows.get(workflow_id)`. -/
def storeGet : List (PyStr × Workflow) → PyStr → Option Workflow
  | [], _ => none
  | (k, w) :: rest, key => if k == key then some w else storeGet rest key

/-- The result dict of a successful `execute_workflow` run
(`execution_time` is wall-clock and fixed to 0 in the embedding). -/
structure ExecutionResult where
  workflowId : PyStr
  status : PyStr
  executionTime : ℚ
  stepsExecuted : Nat
  results : Dict

/-- `WorkflowEngine.execute_workflow`: look up the stored workflow (a miss
raises `ValueError`; stored workflow dicts are non-empty, so `if not
workflow:` means exactly a miss), seed the execution context with the caller
parameters plus `workflow_start_time`, start at `workflow['steps'][0]`
(raising `IndexError` when the step list is empty), and run the chain.  The
outer `except` logs and re-raises, so every error propagates unchanged. -/
def executeWorkflow (workflows : List (PyStr × Workflow)) (workflowId : PyStr)
    (parameters : Dict) : Except ExecError ExecutionResult :=
  match storeGet workflows workflowId with
  | none =>
    .error (.valueError ("Workflow ".toList ++ workflowId ++ " not found".toList))
  | some workflow =>
    let executionContext := dictSet parameters "workflow_start_time".toList .timeStamp
    match workflow.steps with
    | [] => .error .indexError
    | firstStep :: _ =>
      match runSteps workflow.steps executionContext 101 (some firstStep) 0 [] with
      | .error e => .error e
      | .ok (stepIndex, results) =>
        .ok { workflowId := workflowId, status := "completed".toList,
              executionTime := 0, stepsExecuted := stepIndex, results := results }

/-- The walk along the `nextStep` chain, as a pure iteration: position 0 is
the entry step `steps[0]`, position `n+1` follows `_get_next_step`. -/
def chainWalk (steps : List Step) : Nat → Option Step
  | 0 => steps.head?
  | n + 1 => (chainWalk steps n).bind (getNextStep steps)

/-! ## Auxiliary definitions for the claims -/

/-- The outcome of a step execution is a result, not an exception. -/
def execIsOk : Except ExecError Value → Bool
  | .ok _ => true
  | .error _ => false

/-- Some adjacent pair of steps is two `file_operation`s (the merge
opportunity `_optimize_steps` looks for). -/
def hasAdjacentFileOps : List Step → Bool
  | s1 :: s2 :: rest =>
    (s1.type == some "file_operation".toList
        && s2.type == some "file_operation".toList)
      || hasAdjacentFileOps (s2 :: rest)
  | _ => false

/-- Spec-side description of one optimization pass: the output arises from
the input by a single left-to-right scan that either keeps a step in place
or collapses an adjacent pair of `file_operation` steps into their merge —
no reordering, no singleton dropped, no merge of anything but adjacent
`file_operation` pairs. -/
inductive MergePass : List Step → List Step → Prop where
  | nil : MergePass [] []
  | keep (s : Step) {rest out : List Step} :
      MergePass rest out → MergePass (s :: rest) (s :: out)
  | mergePair (s1 s2 : Step) {rest out : List Step}
      (h1 : s1.type = some "file_operation".toList)
      (h2 : s2.type = some "file_operation".toList) :
      MergePass rest out →
      MergePass (s1 :: s2 :: rest) (mergeFileOperations s1 s2 :: out)

/-- Spec-side complexity formula, as a function of the three counts: the
claimed `min(1.0, 0.1·step_count + 0.4·conditional_count +
0.5·external_action_count)`. -/
def scoreOfCounts (s c e : ℕ) : ℚ :=
  min 1.0 ((s : ℚ) * 0.1 + (c : ℚ) * 0.4 + (e : ℚ) * 0.5)

/-- The claimed shape of a dispatcher result: a dict carrying `success`,
`response`, `confidence` and `execution_time` of the right kinds. -/
def hasResultShape (d : Dict) : Prop :=
  (∃ b, dictGet d "success".toList = some (.bool b))
    ∧ (∃ r, dictGet d "response".toList = some (.str r))
    ∧ (∃ c, dictGet d "confidence".toList = some (.num c))
    ∧ (∃ t, dictGet d "execution_time".toList = some (.num t))

/-! ## Concrete fixtures used by witnesses and counterexamples -/

/-- A step whose `nextStep` is itself: the smallest cyclic chain. -/
def selfLoopStep : Step :=
  { id := "a".toList, type := some "command".toList, action := "x".toList,
    parameters := [], nextStep := some "a".toList }

/-- A stored workflow whose `nextStep` chain cycles. -/
def cyclicWorkflow : Workflow :=
  { id := "w1".toList, name := "loop".toList, steps := [selfLoopStep],
    triggerType := "manual".toList }

/-- A `delay` step whose duration is an unresolved template string and
whose `nextStep` is itself: executing it makes `asyncio.sleep` raise. -/
def delayTemplateStep : Step :=
  { id := "d".toList, type := some "delay".toList, action := "wait".toList,
    parameters := [("duration".toList, .str "$\x7bx\x7d".toList)],
    nextStep := some "d".toList }

/-- A stored cyclic workflow whose single step is `delayTemplateStep`. -/
def delayCycleWorkflow : Workflow :=
  { id := "wd".toList, name := "dloop".toList, steps := [delayTemplateStep],
    triggerType := "manual".toList }

/-- Step `s1`: a plain command step chaining to `s2`. -/
def stepS1 : Step :=
  { id := "s1".toList, type := some "command".toList, action := "a".toList,
    parameters := [], nextStep := some "s2".toList }

/-- Step `s2`: its parameter `x` is the template `"$\x7bs1\x7d"`, naming the
id of the step before it. -/
def stepS2 : Step :=
  { id := "s2".toList, type := some "command".toList, action := "b".toList,
    parameters := [("x".toList, .str "$\x7bs1\x7d".toList)], nextStep := none }

/-- A two-step workflow whose second step references the first by template. -/
def twoStepWorkflow : Workflow :=
  { id := "w2".toList, name := "two".toList, steps := [stepS1, stepS2],
    triggerType := "manual".toList }

/-- The result `_execute_system_command` returns for `stepS1` (no
parameters). -/
def stepS1Result : Value :=
  .vdict [("command".toList, .str "a".toList),
    ("parameters".toList, .vdict []),
    ("status".toList, .str "executed".toList)]

/-- A step with an unknown type: executing it raises
`ValueError("Unknown step type: bogus")`. -/
def bogusStep : Step :=
  { id := "s2".toList, type := some "bogus".toList, action := "b".toList,
    parameters := [], nextStep := none }

/-- Like `stepS1` but with a different action, so its execution result
differs from `stepS1`'s. -/
def stepS1' : Step :=
  { id := "s1".toList, type := some "command".toList, action := "c".toList,
    parameters := [], nextStep := some "s2".toList }

/-- A workflow that fails at its second step after `stepS1` succeeded. -/
def failingWorkflowA : Workflow :=
  { id := "wa".toList, name := "fa".toList, steps := [stepS1, bogusStep],
    triggerType := "manual".toList }

/-- Same failure point, but a different successful first step (so a
different partial results map). -/
def failingWorkflowB : Workflow :=
  { id := "wb".toList, name := "fb".toList, steps := [stepS1', bogusStep],
    triggerType := "manual".toList }

/-- A stored workflow with an empty step list. -/
def emptyWorkflow : Workflow :=
  { id := "w0".toList, name := "empty".toList, steps := [],
    triggerType := "manual".toList }

/-- An environment whose shell reports success with output `ok`. -/
def shellOkEnv : Env :=
  { shell := fun _ => .ran { returncode := 0, stdout := "ok".toList, stderr := [] },
    timeStr := [], dateStr := [] }

/-- An environment whose shell raises. -/
def shellRaisingEnv : Env :=
  { shell := fun _ => .raised "boom".toList, timeStr := [], dateStr := [] }

/-- A `file_operation` step fixture, by id. -/
def fileOpStep (i : PyStr) : Step :=
  { id := i, type := some "file_operation".toList, action := "copy".toList,
    parameters := [], nextStep := none }

/-- A 5-step fixture with 1 conditional and 2 external actions. -/
def fiveStepFixture : List Step :=
  [ { id := "1".toList, type := some "condition".toList, action := "c".toList,
      parameters := [], nextStep := none },
    { id := "2".toList, type := some "app_operation".toList, action := "c".toList,
      parameters := [], nextStep := none },
    { id := "3".toList, type := some "file_operation".toList, action := "c".toList,
      parameters := [], nextStep := none },
    { id := "4".toList, type := some "command".toList, action := "c".toList,
      parameters := [], nextStep := none },
    { id := "5".toList, type := some "command".toList, action := "c".toList,
      parameters := [], nextStep := none } ]

/-! ## Helper lemmas -/

/-- `round(·, 2)` is the identity on the clamped tenths grid that
`_calculate_complexity` produces. -/
theorem pyRound2_min_tenths (n : ℕ) :
    pyRound2 (min 1 ((n : ℚ) / 10)) = min 1 ((n : ℚ) / 10) := by
  have h : (min 1 ((n : ℚ) / 10)) * 100 = ((min 100 (10 * n) : ℕ) : ℚ) := by
    rcases le_or_lt n 10 with h | h
    · have h1 : (n : ℚ) / 10 ≤ 1 := by
        rw [div_le_one (by norm_num)]
        exact_mod_cast h.trans_eq (by norm_num)
      have h2 : min 100 (10 * n) = 10 * n := by omega
      rw [min_eq_right h1, h2]
      push_cast; ring
    · have h1 : (1 : ℚ) ≤ (n : ℚ) / 10 := by
        rw [le_div_iff₀ (by norm_num)]
        have h10 : (10 : ℚ) < (n : ℚ) := by exact_mod_cast h
        linarith
      have h2 : min 100 (10 * n) = 100 := by omega
      rw [min_eq_left h1, h2]
      norm_num
  have hfrac : Int.fract ((min 1 ((n : ℚ) / 10)) * 100) = 0 := by
    rw [h]; exact_mod_cast Int.fract_natCast _
  rw [pyRound2, if_neg (by rw [hfrac]; norm_num), h, round_natCast]
  have h' := h
  push_cast at h' ⊢
  linarith

/-- The claimed score formula lives on the clamped tenths grid. -/
theorem scoreOfCounts_eq_grid (s c e : ℕ) :
    scoreOfCounts s c e = min 1 (((s + 4 * c + 5 * e : ℕ) : ℚ) / 10) := by
  unfold scoreOfCounts
  norm_num
  congr 1
  ring

/-- `_calculate_complexity` is the rounded score of the three counts. -/
theorem calculateComplexity_eq_score (steps : List Step) :
    calculateComplexity steps
      = scoreOfCounts (stepCount steps) (conditionalCount steps)
          (externalActionCount steps) := by
  show pyRound2 (scoreOfCounts _ _ _) = _
  rw [scoreOfCounts_eq_grid, pyRound2_min_tenths, ← scoreOfCounts_eq_grid]

/-- A template string starts with `$\x7b`. -/
theorem templ_startswith (key : PyStr) :
    pyStartswith (templOpen ++ key ++ ['\x7d']) templOpen = true := by
  simp [templOpen, pyStartswith]

/-- A template string ends with `\x7d`. -/
theorem templ_endswith (key : PyStr) :
    pyEndswith (templOpen ++ key ++ ['\x7d']) ['\x7d'] = true := by
  simp [templOpen, pyEndswith, pyStartswith, List.reverse_append]

/-- `value[2:-1]` recovers the key between the braces. -/
theorem templ_extract (key : PyStr) :
    (List.drop 2 (templOpen ++ key ++ ['\x7d'])).dropLast = key := by
  simp [templOpen]

/-- `resolveValue` on a template whose key the context holds. -/
theorem resolveValue_templ_hit (context : Dict) (key : PyStr) (v : Value)
    (h : dictGet context key = some v) :
    resolveValue (.str (templOpen ++ key ++ ['\x7d'])) context = v := by
  rw [resolveValue,
    if_pos (by rw [templ_startswith, templ_endswith]; exact rfl),
    templ_extract, dictGetD, h, Option.getD_some]

/-- `resolveValue` on a template whose key the context lacks: the literal
string survives. -/
theorem resolveValue_templ_miss (context : Dict) (key : PyStr)
    (h : dictGet context key = none) :
    resolveValue (.str (templOpen ++ key ++ ['\x7d'])) context
      = .str (templOpen ++ key ++ ['\x7d']) := by
  rw [resolveValue,
    if_pos (by rw [templ_startswith, templ_endswith]; exact rfl),
    templ_extract, dictGetD, h, Option.getD_none]

/-- A non-raising execution outcome is some result. -/
theorem exists_ok_of_execIsOk {e : Except ExecError Value}
    (h : execIsOk e = true) : ∃ r, e = .ok r := by
  cases e with
  | ok r => exact ⟨r, rfl⟩
  | error err => simp [execIsOk] at h

/-- `_get_next_step` only ever returns steps of the workflow. -/
theorem getNextStep_mem {steps : List Step} {s s' : Step}
    (h : getNextStep steps s = some s') : s' ∈ steps := by
  rw [getNextStep] at h
  split at h
  · cases h
  · split at h
    · cases h
    · exact List.mem_of_find?_eq_some h

/-- Every step the chain walk visits belongs to the workflow. -/
theorem chainWalk_mem {steps : List Step} :
    ∀ {n : ℕ} {s : Step}, chainWalk steps n = some s → s ∈ steps := by
  intro n
  induction n with
  | zero =>
    intro s h
    rcases steps with _ | ⟨a, rest⟩
    · cases h
    · cases h; exact List.mem_cons_self _ _
  | succ m ih =>
    intro s h
    rw [show chainWalk steps (m + 1) = (chainWalk steps m).bind (getNextStep steps) from rfl] at h
    rcases hm : chainWalk steps m with _ | t
    · rw [hm] at h; cases h
    · rw [hm, Option.some_bind] at h
      exact getNextStep_mem h

/-- One unfolding of the `while` loop with a current step and fuel left. -/
theorem runSteps_succ_some (steps : List Step) (context : Dict) (fuel : Nat)
    (cur : Step) (idx : Nat) (res : Dict) :
    runSteps steps context (fuel + 1) (some cur) idx res =
      match executeStep cur context with
      | .error e => .error e
      | .ok stepResult =>
        if idx + 1 > 100 then .ok (idx + 1, dictSet res cur.id stepResult)
        else runSteps steps context fuel (getNextStep steps cur) (idx + 1)
          (dictSet res cur.id stepResult) := rfl

/-- On a cyclic chain of executable steps, the loop always runs its full
101 iterations and returns `step_index = 101`. -/
theorem runSteps_cycle (steps : List Step) (context : Dict)
    (hexec : ∀ s ∈ steps, execIsOk (executeStep s context) = true)
    (hcyc : ∀ n, (chainWalk steps n).isSome) :
    ∀ fuel idx cur res, fuel + idx = 101 → 0 < fuel →
      chainWalk steps idx = some cur →
      ∃ finalResults,
        runSteps steps context fuel (some cur) idx res = .ok (101, finalResults) := by
  intro fuel
  induction fuel with
  | zero => intro idx cur res hsum h0; exact absurd h0 (lt_irrefl 0)
  | succ f ih =>
    intro idx cur res hsum _ hwalk
    obtain ⟨r, hr⟩ := exists_ok_of_execIsOk (hexec cur (chainWalk_mem hwalk))
    have hnextWalk := hcyc (idx + 1)
    rw [show chainWalk steps (idx + 1) = (chainWalk steps idx).bind (getNextStep steps) from rfl,
      hwalk, Option.some_bind] at hnextWalk
    obtain ⟨cur', hcur'⟩ := Option.isSome_iff_exists.mp hnextWalk
    by_cases hidx : idx + 1 > 100
    · have hf : f = 0 := by omega
      have hi : idx = 100 := by omega
      subst hf hi
      exact ⟨dictSet res cur.id r, by rw [runSteps_succ_some, hr]; rfl⟩
    · have hf : 0 < f := by omega
      obtain ⟨fr, hfr⟩ :=
        ih (idx + 1) cur' (dictSet res cur.id r) (by omega) hf
          (by rw [show chainWalk steps (idx + 1)
              = (chainWalk steps idx).bind (getNextStep steps) from rfl, hwalk,
              Option.some_bind]
              exact hcur')
      refine ⟨fr, ?_⟩
      rw [runSteps_succ_some, hr]
      simp only [if_neg hidx]
      rw [hcur']
      exact hfr

/-- `firstPatMatch` succeeds exactly when some pattern of the list
`re.search`-matches. -/
theorem firstPatMatch_isSome_iff (ps : List Pattern) (s : PyStr) :
    (firstPatMatch ps s).isSome = true ↔ ∃ p ∈ ps, patMatches p s = true := by
  induction ps with
  | nil => simp [firstPatMatch]
  | cons p rest ih =>
    rw [firstPatMatch]
    rcases hp : patSearch p s with _ | g
    · simp only [hp]
      rw [ih]
      constructor
      · rintro ⟨q, hq, hm⟩
        exact ⟨q, List.mem_cons_of_mem _ hq, hm⟩
      · rintro ⟨q, hq, hm⟩
        rcases List.mem_cons.mp hq with rfl | hq'
        · rw [patMatches, hp] at hm; cases hm
        · exact ⟨q, hq', hm⟩
    · simp only [hp, Option.isSome_some, true_iff]
      exact ⟨p, List.mem_cons_self _ _, by rw [patMatches, hp]; rfl⟩

/-- A hit of `firstRuleMatch` names a registered rule with a matching
pattern. -/
theorem firstRuleMatch_some_spec :
    ∀ (rules : List IntentRule) (s : PyStr) (r : IntentRule) (g : Option PyStr),
      firstRuleMatch rules s = some (r, g) →
      r ∈ rules ∧ ∃ p ∈ r.patterns, patMatches p s = true := by
  intro rules
  induction rules with
  | nil => intro s r g h; cases h
  | cons r0 rest ih =>
    intro s r g h
    rw [firstRuleMatch] at h
    rcases hp : firstPatMatch r0.patterns s with _ | g0
    · rw [hp] at h
      obtain ⟨hmem, hpat⟩ := ih s r g h
      exact ⟨List.mem_cons_of_mem _ hmem, hpat⟩
    · rw [hp] at h
      cases h
      refine ⟨List.mem_cons_self _ _, ?_⟩
      exact (firstPatMatch_isSome_iff r0.patterns s).mp (by rw [hp]; rfl)

/-- A miss of `firstRuleMatch` means no registered pattern matches. -/
theorem firstRuleMatch_none_spec :
    ∀ (rules : List IntentRule) (s : PyStr),
      firstRuleMatch rules s = none →
      ∀ r ∈ rules, ∀ p ∈ r.patterns, patMatches p s = false := by
  intro rules
  induction rules with
  | nil => intro s _ r hr; cases hr
  | cons r0 rest ih =>
    intro s h r hr p hp
    rw [firstRuleMatch] at h
    rcases hfp : firstPatMatch r0.patterns s with _ | g0
    · rw [hfp] at h
      rcases List.mem_cons.mp hr with rfl | hr'
      · by_contra hm
        have : ∃ q ∈ r.patterns, patMatches q s = true :=
          ⟨p, hp, by revert hm; cases patMatches p s <;> simp⟩
        have := (firstPatMatch_isSome_iff r.patterns s).mpr this
        rw [hfp] at this
        cases this
      · exact ih s h r hr' p hp
    · rw [hfp] at h; cases h

/-- If no registered pattern matches, `firstRuleMatch` misses. -/
theorem firstRuleMatch_none_of_no_match :
    ∀ (rules : List IntentRule) (s : PyStr),
      (∀ r ∈ rules, ∀ p ∈ r.patterns, patMatches p s = false) →
      firstRuleMatch rules s = none := by
  intro rules
  induction rules with
  | nil => intro s _; rfl
  | cons r0 rest ih =>
    intro s h
    rw [firstRuleMatch]
    rcases hfp : firstPatMatch r0.patterns s with _ | g0
    · exact ih s (fun r hr => h r (List.mem_cons_of_mem _ hr))
    · exfalso
      have hs : (firstPatMatch r0.patterns s).isSome = true := by rw [hfp]; rfl
      obtain ⟨p, hp, hm⟩ := (firstPatMatch_isSome_iff r0.patterns s).mp hs
      rw [h r0 (List.mem_cons_self _ _) p hp] at hm
      cases hm

/-- Without an adjacent `file_operation` pair the optimizer is the
identity. -/
theorem optimizeSteps_no_adjacent : ∀ steps : List Step,
    hasAdjacentFileOps steps = false → optimizeSteps steps = steps
  | [] => fun _ => rfl
  | [s] => fun _ => rfl
  | s1 :: s2 :: rest => fun h => by
    rw [hasAdjacentFileOps, Bool.or_eq_false_iff] at h
    rw [optimizeSteps, if_neg (by rw [h.1]; exact Bool.false_ne_true)]
    rw [optimizeSteps_no_adjacent (s2 :: rest) h.2]

/-- `_optimize_steps` performs one order-preserving, pairwise-merging
left-to-right pass. -/
theorem mergePass_optimizeSteps : ∀ steps : List Step,
    MergePass steps (optimizeSteps steps)
  | [] => MergePass.nil
  | [s] => MergePass.keep s MergePass.nil
  | s1 :: s2 :: rest => by
    by_cases hc : (s1.type == some "file_operation".toList
        && s2.type == some "file_operation".toList) = true
    · rw [optimizeSteps, if_pos hc]
      rw [Bool.and_eq_true, beq_iff_eq, beq_iff_eq] at hc
      exact MergePass.mergePair s1 s2 hc.1 hc.2 (mergePass_optimizeSteps rest)
    · rw [optimizeSteps, if_neg hc]
      exact MergePass.keep s1 (mergePass_optimizeSteps (s2 :: rest))

/-- Launch handler results always carry the four `CommandResult` fields. -/
theorem shape_handleApplicationLaunch (cmd : PyStr) (ps : Dict) :
    hasResultShape (handleApplicationLaunch cmd ps) := by
  rcases h : extractAppName cmd with _ | app <;>
    simp only [handleApplicationLaunch, h] <;>
    exact ⟨⟨_, rfl⟩, ⟨_, rfl⟩, ⟨_, rfl⟩, ⟨_, rfl⟩⟩

/-- Close handler results always carry the four `CommandResult` fields. -/
theorem shape_handleApplicationClose (cmd : PyStr) (ps : Dict) :
    hasResultShape (handleApplicationClose cmd ps) := by
  rcases h : extractAppName cmd with _ | app <;>
    simp only [handleApplicationClose, h] <;>
    exact ⟨⟨_, rfl⟩, ⟨_, rfl⟩, ⟨_, rfl⟩, ⟨_, rfl⟩⟩

/-- Search handler results always carry the four `CommandResult` fields. -/
theorem shape_handleFileSearch (cmd : PyStr) (ps : Dict) :
    hasResultShape (handleFileSearch cmd ps) := by
  rcases h : extractSearchQuery cmd with _ | q <;>
    simp only [handleFileSearch, h] <;>
    exact ⟨⟨_, rfl⟩, ⟨_, rfl⟩, ⟨_, rfl⟩, ⟨_, rfl⟩⟩

/-- File-operation handler results always carry the four fields. -/
theorem shape_handleFileOperation (cmd : PyStr) (ps : Dict) :
    hasResultShape (handleFileOperation cmd ps) := by
  rcases h : extractFileOperation cmd with _ | op <;>
    simp only [handleFileOperation, h] <;>
    exact ⟨⟨_, rfl⟩, ⟨_, rfl⟩, ⟨_, rfl⟩, ⟨_, rfl⟩⟩

/-- System-info handler results always carry the four fields. -/
theorem shape_handleSystemInfo (env : Env) (cmd : PyStr) (ps : Dict) :
    hasResultShape (handleSystemInfo env cmd ps) := by
  rw [handleSystemInfo]
  split
  · exact ⟨⟨_, rfl⟩, ⟨_, rfl⟩, ⟨_, rfl⟩, ⟨_, rfl⟩⟩
  · split
    · exact ⟨⟨_, rfl⟩, ⟨_, rfl⟩, ⟨_, rfl⟩, ⟨_, rfl⟩⟩
    · exact ⟨⟨_, rfl⟩, ⟨_, rfl⟩, ⟨_, rfl⟩, ⟨_, rfl⟩⟩

/-- Generic handler results always carry the four fields, whatever the
shell did. -/
theorem shape_handleGenericCommand (env : Env) (cmd : PyStr) (ps : Dict) :
    hasResultShape (handleGenericCommand env cmd ps) := by
  rcases h : env.shell cmd with res | msg <;> simp only [handleGenericCommand, h]
  · split
    · exact ⟨⟨_, rfl⟩, ⟨_, rfl⟩, ⟨_, rfl⟩, ⟨_, rfl⟩⟩
    · exact ⟨⟨_, rfl⟩, ⟨_, rfl⟩, ⟨_, rfl⟩, ⟨_, rfl⟩⟩
  · exact ⟨⟨_, rfl⟩, ⟨_, rfl⟩, ⟨_, rfl⟩, ⟨_, rfl⟩⟩

/-! ## Claims -/

/-- C6: Step optimization is a single left-to-right pass that merges exactly
two adjacent `file_operation` steps into one `batch_operation` step carrying
both originals, never reorders steps, leaves non-adjacent or mixed-type
steps untouched, and merges pairwise only: three consecutive file operations
yield one merged pair followed by the third step as a singleton. -/
theorem c6_optimize_pairwise :
    (∀ A B C : Step, A.type = some "file_operation".toList →
        B.type = some "file_operation".toList →
        C.type = some "file_operation".toList →
        optimizeSteps [A, B, C] = [mergeFileOperations A B, C])
    ∧ (∀ s1 s2 : Step,
        (mergeFileOperations s1 s2).action = "batch_operation".toList
        ∧ dictGet (mergeFileOperations s1 s2).parameters "operations".toList
            = some (.vlist [stepToValue s1, stepToValue s2]))
    ∧ (∀ steps : List Step, hasAdjacentFileOps steps = false →
        optimizeSteps steps = steps)
    ∧ (∀ steps : List Step, MergePass steps (optimizeSteps steps)) := by
  refine ⟨?_, ?_, optimizeSteps_no_adjacent, mergePass_optimizeSteps⟩
  · intro A B C hA hB hC
    rw [optimizeSteps, if_pos (by rw [hA, hB]; rfl)]
    rfl
  · intro s1 s2
    exact ⟨rfl, rfl⟩

/-- Witness for C6 at concrete inputs: three adjacent file operations
become the merged pair plus the untouched third step, and a mixed list is
left unchanged. -/
theorem c6_optimize_pairwise_witness :
    optimizeSteps [fileOpStep "1".toList, fileOpStep "2".toList, fileOpStep "3".toList]
      = [mergeFileOperations (fileOpStep "1".toList) (fileOpStep "2".toList),
         fileOpStep "3".toList]
    ∧ optimizeSteps [stepS1, fileOpStep "2".toList, stepS2]
      = [stepS1, fileOpStep "2".toList, stepS2] :=
  ⟨c6_optimize_pairwise.1 _ _ _ rfl rfl rfl,
   c6_optimize_pairwise.2.2.1 _ (by decide)⟩

/-- C7: For every step list, the complexity score equals
`min(1.0, 0.1·step_count + 0.4·conditional_count + 0.5·external_action_count)`
with external actions the `app_operation`/`file_operation` steps; the score
lies in `[0, 1]`, is monotone in each count, and a 5-step list with 1
conditional and 2 external actions scores exactly 1.0. -/
theorem c7_complexity_score :
    (∀ steps : List Step,
      calculateComplexity steps
        = min 1.0 ((stepCount steps : ℚ) * 0.1 + (conditionalCount steps : ℚ) * 0.4
            + (externalActionCount steps : ℚ) * 0.5))
    ∧ (∀ steps : List Step,
        0 ≤ calculateComplexity steps ∧ calculateComplexity steps ≤ 1)
    ∧ (∀ s s' c c' e e' : ℕ, s ≤ s' → c ≤ c' → e ≤ e' →
        scoreOfCounts s c e ≤ scoreOfCounts s' c' e')
    ∧ (stepCount fiveStepFixture = 5 ∧ conditionalCount fiveStepFixture = 1
        ∧ externalActionCount fiveStepFixture = 2
        ∧ calculateComplexity fiveStepFixture = 1.0) := by
  refine ⟨?_, ?_, ?_, ?_⟩
  · intro steps
    exact calculateComplexity_eq_score steps
  · intro steps
    rw [calculateComplexity_eq_score, scoreOfCounts_eq_grid]
    constructor
    · positivity
    · exact min_le_left _ _
  · intro s s' c c' e e' hs hc he
    unfold scoreOfCounts
    gcongr
  · refine ⟨by decide, by decide, by decide, ?_⟩
    rw [calculateComplexity_eq_score,
      show stepCount fiveStepFixture = 5 from by decide,
      show conditionalCount fiveStepFixture = 1 from by decide,
      show externalActionCount fiveStepFixture = 2 from by decide,
      scoreOfCounts_eq_grid]
    rw [min_eq_left (by norm_num)]
    norm_num

/-- Witness for C7's monotonicity at concrete counts. -/
theorem c7_complexity_score_witness :
    scoreOfCounts 1 0 0 ≤ scoreOfCounts 2 1 1 :=
  c7_complexity_score.2.2.1 1 2 0 1 0 1 (by norm_num) (by norm_num) (by norm_num)

/-- C8: A string parameter value of the exact form `$\x7bkey\x7d` is replaced
by `context[key]` when the key is present and left as the literal template
when absent; every other value — non-strings, and strings not bracketed by
the template delimiters — is left unchanged, and resolution is pointwise
over the parameter mapping (no partial interpolation inside a string). -/
theorem c8_template_resolution :
    (∀ (context : Dict) (key : PyStr) (v : Value), dictGet context key = some v →
      resolveValue (.str (templOpen ++ key ++ ['\x7d'])) context = v)
    ∧ (∀ (context : Dict) (key : PyStr), dictGet context key = none →
      resolveValue (.str (templOpen ++ key ++ ['\x7d'])) context
        = .str (templOpen ++ key ++ ['\x7d']))
    ∧ (∀ (context : Dict) (s : PyStr),
        pyStartswith s templOpen = false ∨ pyEndswith s ['\x7d'] = false →
        resolveValue (.str s) context = .str s)
    ∧ (∀ (context : Dict) (v : Value), (∀ s, v ≠ .str s) →
        resolveValue v context = v)
    ∧ (∀ (parameters context : Dict),
        resolveParameters parameters context
          = parameters.map (fun kv => (kv.1, resolveValue kv.2 context))) := by
  refine ⟨resolveValue_templ_hit, resolveValue_templ_miss, ?_, ?_, fun _ _ => rfl⟩
  · intro context s h
    rw [resolveValue, if_neg]
    rcases h with h | h <;> simp [h]
  · intro context v h
    rcases v with s | q | b | _ | l | d
    · exact absurd rfl (h s)
    all_goals rfl

/-- Witness for C8 at concrete inputs: a present key resolves, a missing key
stays literal, a longer string and a non-string are untouched. -/
theorem c8_template_resolution_witness :
    resolveValue (.str "$\x7bk\x7d".toList) [("k".toList, .num 7)] = .num 7
    ∧ resolveValue (.str "$\x7bmissing\x7d".toList) [("k".toList, .num 7)]
        = .str "$\x7bmissing\x7d".toList
    ∧ resolveValue (.str "a $\x7bk\x7d b".toList) [("k".toList, .num 7)]
        = .str "a $\x7bk\x7d b".toList
    ∧ resolveValue (.num 3) [("k".toList, .num 7)] = .num 3 :=
  ⟨c8_template_resolution.1 _ "k".toList _ rfl,
   c8_template_resolution.2.1 _ "missing".toList rfl,
   c8_template_resolution.2.2.1 _ _ (Or.inl (by decide)),
   c8_template_resolution.2.2.2.1 _ _ (fun s h => by cases h)⟩

/-- C10: Executing a stored workflow whose step sequence is empty does not
return a completed result with zero steps executed: fetching the entry step
`workflow['steps'][0]` raises an `IndexError` that propagates. -/
theorem c10_empty_steps_index_error (workflows : List (PyStr × Workflow))
    (wid : PyStr) (w : Workflow) (parameters : Dict)
    (hw : storeGet workflows wid = some w) (hempty : w.steps = []) :
    executeWorkflow workflows wid parameters = .error .indexError
    ∧ ∀ er, executeWorkflow workflows wid parameters ≠ .ok er := by
  have h : executeWorkflow workflows wid parameters = .error .indexError := by
    simp [executeWorkflow, hw, hempty]
  refine ⟨h, fun er h' => ?_⟩
  rw [h] at h'
  cases h'

/-- Witness for C10: a concrete empty stored workflow. -/
theorem c10_empty_steps_index_error_witness :
    executeWorkflow [("w0".toList, emptyWorkflow)] "w0".toList []
      = .error .indexError :=
  (c10_empty_steps_index_error [("w0".toList, emptyWorkflow)] "w0".toList
    emptyWorkflow [] rfl rfl).1

/-- C4: `classify` is total; when some configured rule pattern matches the
lower-cased, trimmed input it returns the (first) matching rule's intent and
action with confidence exactly 0.9, and when no pattern matches it returns
`general_query` / `ai_process` with confidence 0.3 and the original text as
the `prompt` parameter. -/
theorem c4_classify_total :
    (∀ text : PyStr,
      (∃ r ∈ analyzerRules, ∃ p ∈ r.patterns,
          patMatches p (pyStrip (pyLower text)) = true) →
      ∃ r ∈ analyzerRules,
        (∃ p ∈ r.patterns, patMatches p (pyStrip (pyLower text)) = true)
        ∧ (analyze text).intent = r.intent ∧ (analyze text).action = r.action
        ∧ (analyze text).confidence = 0.9)
    ∧ (∀ text : PyStr,
      (∀ r ∈ analyzerRules, ∀ p ∈ r.patterns,
          patMatches p (pyStrip (pyLower text)) = false) →
      analyze text = fallbackAnalysis text
      ∧ (analyze text).intent = "general_query".toList
      ∧ (analyze text).action = "ai_process".toList
      ∧ (analyze text).confidence = 0.3
      ∧ (analyze text).parameters = [("prompt".toList, .str text)]) := by
  constructor
  · intro text hex
    rcases hfm : firstRuleMatch analyzerRules (pyStrip (pyLower text)) with _ | ⟨r, g⟩
    · exfalso
      obtain ⟨r, hr, p, hp, hm⟩ := hex
      rw [firstRuleMatch_none_spec analyzerRules _ hfm r hr p hp] at hm
      cases hm
    · obtain ⟨hmem, hpat⟩ := firstRuleMatch_some_spec analyzerRules _ r g hfm
      refine ⟨r, hmem, hpat, ?_, ?_, ?_⟩ <;> simp [analyze, hfm]
  · intro text hall
    have hfm := firstRuleMatch_none_of_no_match analyzerRules _ hall
    refine ⟨?_, ?_, ?_, ?_, ?_⟩ <;> simp [analyze, hfm, fallbackAnalysis]

/-- Witness for C4 at two concrete inputs: a matching text classifies with
confidence 0.9 to the first matching rule, a non-matching text falls back. -/
theorem c4_classify_total_witness :
    ((analyze "open chrome".toList).intent = "open_application".toList
      ∧ (analyze "open chrome".toList).confidence = 0.9)
    ∧ ((analyze "xyzzy".toList).intent = "general_query".toList
      ∧ (analyze "xyzzy".toList).action = "ai_process".toList
      ∧ (analyze "xyzzy".toList).confidence = 0.3
      ∧ (analyze "xyzzy".toList).parameters
          = [("prompt".toList, .str "xyzzy".toList)]) := by
  constructor
  · obtain ⟨r, hr, hpat, hintent, haction, hconf⟩ :=
      c4_classify_total.1 "open chrome".toList
        ⟨_, List.Mem.head _, .litCapture "open ".toList, List.Mem.head _, by decide⟩
    exact ⟨by decide, hconf⟩
  · exact (c4_classify_total.2 "xyzzy".toList (by decide)).2

/-- C5: The dispatcher's `execute` never raises: every command and parameter
mapping yields a structured `CommandResult` dict, and the modelled internal
exception source (the shell raising inside the generic handler) is converted
into a result with confidence 0.0 and a response describing the failure. -/
theorem c5_dispatcher_never_raises :
    (∀ (env : Env) (command : PyStr) (parameters : Option Dict),
      hasResultShape (CommandProcessor.execute env command parameters))
    ∧ (∀ (env : Env) (command : PyStr) (parameters : Option Dict) (msg : PyStr),
        isLaunchCommand (pyStrip (pyLower command)) = false →
        isCloseCommand (pyStrip (pyLower command)) = false →
        isSearchCommand (pyStrip (pyLower command)) = false →
        isFileOpCommand (pyStrip (pyLower command)) = false →
        isSystemInfoCommand (pyStrip (pyLower command)) = false →
        env.shell command = .raised msg →
        CommandProcessor.execute env command parameters =
          [("success".toList, .bool false),
           ("response".toList, .str ("Command execution error: ".toList ++ msg)),
           ("confidence".toList, .num 0.0),
           ("execution_time".toList, .num 0)]) := by
  constructor
  · intro env command parameters
    simp only [CommandProcessor.execute]
    split
    · exact shape_handleApplicationLaunch _ _
    · split
      · exact shape_handleApplicationClose _ _
      · split
        · exact shape_handleFileSearch _ _
        · split
          · exact shape_handleFileOperation _ _
          · split
            · exact shape_handleSystemInfo _ _ _
            · exact shape_handleGenericCommand _ _ _
  · intro env command parameters msg h1 h2 h3 h4 h5 hsh
    simp only [CommandProcessor.execute, h1, h2, h3, h4, h5, Bool.false_eq_true,
      if_false]
    simp only [handleGenericCommand, hsh]

/-- Witness for C5: a concrete raising shell on a keyword-free command. -/
theorem c5_dispatcher_never_raises_witness :
    CommandProcessor.execute shellRaisingEnv "zzz".toList none =
      [("success".toList, .bool false),
       ("response".toList, .str ("Command execution error: boom".toList)),
       ("confidence".toList, .num 0.0),
       ("execution_time".toList, .num 0)] :=
  c5_dispatcher_never_raises.2 shellRaisingEnv "zzz".toList none "boom".toList
    (by decide) (by decide) (by decide) (by decide) (by decide) rfl

/-- C1 (counterexample): in a concrete two-step run, step `s2`'s parameter
`$\x7bs1\x7d` does not resolve to step `s1`'s result — it survives as the
literal template inside `s2`'s executed parameters, because step results are
never merged into the execution context. -/
theorem c1_counterexample :
    ∃ er, executeWorkflow [("w2".toList, twoStepWorkflow)] "w2".toList [] = .ok er
      ∧ dictGet er.results "s1".toList = some stepS1Result
      ∧ dictGet er.results "s2".toList
          = some (.vdict [("command".toList, .str "b".toList),
              ("parameters".toList, .vdict [("x".toList, .str "$\x7bs1\x7d".toList)]),
              ("status".toList, .str "executed".toList)])
      ∧ Value.str "$\x7bs1\x7d".toList ≠ stepS1Result := by
  refine ⟨_, rfl, rfl, rfl, ?_⟩
  simp [stepS1Result]

/-- C1 (amended): after each step completes, its result is stored under the
step's id in the run's `results` map (returned to the caller); the execution
context is never extended with step results, so a later step's
`$\x7bstep.id\x7d` parameter is resolved against the unchanged initial
context and stays the literal template whenever the caller did not seed that
key. -/
theorem c1_amended :
    (∀ (steps : List Step) (context : Dict) (fuel : Nat) (cur : Step)
        (idx : Nat) (res : Dict) (r : Value),
      executeStep cur context = .ok r →
      runSteps steps context (fuel + 1) (some cur) idx res =
        if idx + 1 > 100 then .ok (idx + 1, dictSet res cur.id r)
        else runSteps steps context fuel (getNextStep steps cur) (idx + 1)
          (dictSet res cur.id r))
    ∧ (∀ (context : Dict) (key k : PyStr), dictGet context key = none →
        resolveParameters [(k, .str (templOpen ++ key ++ ['\x7d']))] context
          = [(k, .str (templOpen ++ key ++ ['\x7d']))]) := by
  constructor
  · intro steps context fuel cur idx res r h
    rw [runSteps_succ_some, h]
  · intro context key k h
    simp only [resolveParameters, List.map_cons, List.map_nil]
    rw [resolveValue_templ_miss context key h]

/-- Witness for C1's amended statement at concrete inputs. -/
theorem c1_amended_witness :
    runSteps [stepS1] [] 1 (some stepS1) 0 [] =
      runSteps [stepS1] [] 0 (getNextStep [stepS1] stepS1) 1
        (dictSet [] "s1".toList stepS1Result)
    ∧ resolveParameters [("x".toList, .str "$\x7bs1\x7d".toList)]
        [("workflow_start_time".toList, .timeStamp)]
        = [("x".toList, .str "$\x7bs1\x7d".toList)] := by
  constructor
  · have h := c1_amended.1 [stepS1] [] 0 stepS1 0 [] stepS1Result rfl
    simpa using h
  · exact c1_amended.2 [("workflow_start_time".toList, .timeStamp)]
      "s1".toList "x".toList rfl

/-- C2 (counterexample): the smallest cyclic workflow terminates, but with
status `completed` (never `aborted`) and 101 steps executed (the guard
breaks only once the incremented index exceeds 100), refuting the claimed
`aborted` / 100. -/
theorem c2_counterexample :
    ∃ er, executeWorkflow [("w1".toList, cyclicWorkflow)] "w1".toList [] = .ok er
      ∧ er.status = "completed".toList ∧ er.stepsExecuted = 101
      ∧ er.status ≠ "aborted".toList ∧ er.stepsExecuted ≠ 100 := by
  refine ⟨_, rfl, rfl, rfl, by decide, by decide⟩

/-- C2 (amended): executing any stored workflow whose `nextStep` chain
cycles (the walk from the entry step never ends) and whose steps all execute
without raising against the initial context (known step types and, for
`delay` steps, numeric resolved durations) terminates with status
`completed` — not `aborted` — and exactly 101 steps executed. -/
theorem c2_cycle_terminates (workflows : List (PyStr × Workflow)) (wid : PyStr)
    (w : Workflow) (parameters : Dict)
    (hw : storeGet workflows wid = some w)
    (hexec : ∀ s ∈ w.steps, execIsOk (executeStep s
      (dictSet parameters "workflow_start_time".toList .timeStamp)) = true)
    (hcyc : ∀ n, (chainWalk w.steps n).isSome = true) :
    ∃ er, executeWorkflow workflows wid parameters = .ok er
      ∧ er.status = "completed".toList ∧ er.stepsExecuted = 101 := by
  have h0 := hcyc 0
  rcases hsteps : w.steps with _ | ⟨s0, rest⟩
  · rw [hsteps] at h0
    simp [chainWalk] at h0
  · have hwalk0 : chainWalk w.steps 0 = some s0 := by rw [hsteps]; rfl
    obtain ⟨fr, hfr⟩ := runSteps_cycle w.steps
      (dictSet parameters "workflow_start_time".toList .timeStamp) hexec hcyc
      101 0 s0 [] (by norm_num) (by norm_num) hwalk0
    rw [hsteps] at hfr
    refine ⟨⟨wid, "completed".toList, 0, 101, fr⟩, ?_, rfl, rfl⟩
    simp only [executeWorkflow, hw, hsteps]
    rw [hfr]

/-- Witness for C2's amended statement: the concrete self-loop workflow. -/
theorem c2_cycle_terminates_witness :
    ∃ er, executeWorkflow [("w1".toList, cyclicWorkflow)] "w1".toList [] = .ok er
      ∧ er.status = "completed".toList ∧ er.stepsExecuted = 101 := by
  have hall : ∀ n, chainWalk cyclicWorkflow.steps n = some selfLoopStep := by
    intro n
    induction n with
    | zero => rfl
    | succ m ih =>
      rw [show chainWalk cyclicWorkflow.steps (m + 1)
          = (chainWalk cyclicWorkflow.steps m).bind (getNextStep cyclicWorkflow.steps)
        from rfl, ih]
      rfl
  exact c2_cycle_terminates [("w1".toList, cyclicWorkflow)] "w1".toList
    cyclicWorkflow [] rfl (by decide) (fun n => by rw [hall n]; rfl)

/-- The scenario C2's hypotheses exclude: on a cyclic workflow whose single
`delay` step has a non-numeric resolved duration (an unresolved template
string), `asyncio.sleep` raises `TypeError` at the first step and
`execute_workflow` propagates it instead of completing. -/
theorem delay_nonnumeric_duration_raises :
    executeWorkflow [("wd".toList, delayCycleWorkflow)] "wd".toList []
      = .error .typeError := rfl

/-- C3 (counterexample): dispatching the bare command `open` does not yield
confidence at most 0.3 — with a shell that exits 0 it routes to the generic
handler and reports confidence 0.8. -/
theorem c3_counterexample :
    dictGet (CommandProcessor.execute shellOkEnv "open".toList none)
        "confidence".toList = some (.num 0.8)
    ∧ ¬((0.8 : ℚ) ≤ 0.3) :=
  ⟨rfl, by norm_num⟩

/-- C3 (amended): `open chrome` routes to the launch handler with extracted
application `chrome` and confidence at least 0.9; the bare `open` does not
carry the trailing space the launch prefixes require, so it falls through to
the generic shell handler, which extracts no application name and reports
confidence 0.8, 0.6 or 0.0 according to the shell outcome. -/
theorem c3_dispatch_open :
    (∀ (env : Env) (parameters : Option Dict),
      CommandProcessor.execute env "open chrome".toList parameters
          = handleApplicationLaunch "open chrome".toList (parameters.getD [])
      ∧ dictGet (CommandProcessor.execute env "open chrome".toList parameters)
          "application".toList = some (.str "chrome".toList)
      ∧ ∃ c, dictGet (CommandProcessor.execute env "open chrome".toList parameters)
            "confidence".toList = some (.num c) ∧ 0.9 ≤ c)
    ∧ (∀ (env : Env) (parameters : Option Dict),
      CommandProcessor.execute env "open".toList parameters
          = handleGenericCommand env "open".toList (parameters.getD [])
      ∧ dictGet (CommandProcessor.execute env "open".toList parameters)
          "application".toList = none
      ∧ ∃ c, dictGet (CommandProcessor.execute env "open".toList parameters)
            "confidence".toList = some (.num c)
          ∧ (c = 0.8 ∨ c = 0.6 ∨ c = 0.0)) := by
  constructor
  · intro env parameters
    exact ⟨rfl, rfl, 0.9, rfl, le_refl _⟩
  · intro env parameters
    refine ⟨rfl, ?_, ?_⟩
    · rw [show CommandProcessor.execute env "open".toList parameters
          = handleGenericCommand env "open".toList (parameters.getD []) from rfl]
      rcases h : env.shell "open".toList with res | msg <;>
        simp only [handleGenericCommand, h]
      · split
        · rfl
        · rfl
      · rfl
    · rw [show CommandProcessor.execute env "open".toList parameters
          = handleGenericCommand env "open".toList (parameters.getD []) from rfl]
      rcases h : env.shell "open".toList with res | msg <;>
        simp only [handleGenericCommand, h]
      · split
        · exact ⟨0.8, rfl, Or.inl rfl⟩
        · exact ⟨0.6, rfl, Or.inr (Or.inl rfl)⟩
      · exact ⟨0.0, rfl, Or.inr (Or.inr rfl)⟩

/-- C9 (counterexample): two runs whose successful prefixes differ (so their
partial results maps differ) surface the identical error value to the
caller, so the propagated failure does not carry the partial results map. -/
theorem c9_counterexample :
    executeWorkflow [("wa".toList, failingWorkflowA)] "wa".toList []
        = .error (.valueError "Unknown step type: bogus".toList)
    ∧ executeWorkflow [("wb".toList, failingWorkflowB)] "wb".toList []
        = .error (.valueError "Unknown step type: bogus".toList)
    ∧ executeStep stepS1 [("workflow_start_time".toList, .timeStamp)]
        ≠ executeStep stepS1' [("workflow_start_time".toList, .timeStamp)] := by
  refine ⟨rfl, rfl, ?_⟩
  simp [executeStep, stepS1, stepS1', resolveParameters]

/-- C9 (amended): an executor failure at any step immediately aborts the
run — the accumulated results and the remaining steps cannot influence the
outcome — and the error propagates unchanged to `execute_workflow`'s
caller (without the partial results map). -/
theorem c9_failure_aborts :
    (∀ (steps : List Step) (context : Dict) (fuel : Nat) (cur : Step)
        (idx : Nat) (res : Dict) (e : ExecError),
      executeStep cur context = .error e →
      runSteps steps context (fuel + 1) (some cur) idx res = .error e)
    ∧ (∀ (workflows : List (PyStr × Workflow)) (wid : PyStr) (w : Workflow)
        (parameters : Dict) (e : ExecError) (s0 : Step) (rest : List Step),
      storeGet workflows wid = some w → w.steps = s0 :: rest →
      runSteps w.steps (dictSet parameters "workflow_start_time".toList .timeStamp)
          101 (some s0) 0 [] = .error e →
      executeWorkflow workflows wid parameters = .error e) := by
  constructor
  · intro steps context fuel cur idx res e h
    rw [runSteps_succ_some, h]
  · intro workflows wid w parameters e s0 rest hw hsteps hrun
    rw [hsteps] at hrun
    simp only [executeWorkflow, hw, hsteps]
    rw [hrun]

/-- Witness for C9's amended statement at concrete inputs. -/
theorem c9_failure_aborts_witness :
    runSteps [bogusStep] [] 1 (some bogusStep) 0 []
        = .error (.valueError "Unknown step type: bogus".toList)
    ∧ executeWorkflow [("wa".toList, failingWorkflowA)] "wa".toList []
        = .error (.valueError "Unknown step type: bogus".toList) := by
  constructor
  · exact c9_failure_aborts.1 [bogusStep] [] 0 bogusStep 0 [] _ rfl
  · exact c9_failure_aborts.2 [("wa".toList, failingWorkflowA)] "wa".toList
      failingWorkflowA [] _ stepS1 [bogusStep] rfl rfl rfl
